import Mathlib

/-!
Shallow embedding of the `BrazilianPlateValidator` module
(`src/utils/plateUtils.ts`): Brazilian vehicle-plate normalization, format
detection, display masking, validation and incremental input formatting.
Strings are modelled as `List Char`; the JavaScript regexes are modelled as
boolean matchers over such lists.
-/

namespace BrazilianPlateValidator

/-- The two Brazilian plate formats (the `PlateFormat` enum of the source). -/
inductive PlateFormat where
  | OLD
  | NEW

deriving instance DecidableEq for PlateFormat

/-- Characters kept by the normalization step `replace(/[^A-Z0-9]/gi, '')`:
ASCII letters of either case and ASCII digits (the `i` flag makes the
character class case-insensitive). -/
def isPlateChar (c : Char) : Bool :=
  (65 ≤ c.toNat && c.toNat ≤ 90) || (97 ≤ c.toNat && c.toNat ≤ 122) ||
    (48 ≤ c.toNat && c.toNat ≤ 57)

/-- The normalization expression used by every public operation of the source:
`input.replace(/[^A-Z0-9]/gi, '').toUpperCase()`. -/
def normalize (s : List Char) : List Char :=
  (s.filter isPlateChar).map Char.toUpper

/-- Character class `[A-Z]` of the source regexes. -/
def isUpperAZ (c : Char) : Bool :=
  65 ≤ c.toNat && c.toNat ≤ 90

/-- Character class `\d` of the source regexes. -/
def isDigit09 (c : Char) : Bool :=
  48 ≤ c.toNat && c.toNat ≤ 57

/-- A character that is an uppercase ASCII letter or an ASCII digit, i.e. the
class `[A-Z0-9]` that normalized strings are drawn from. -/
def isUpperOrDigit (c : Char) : Bool :=
  isUpperAZ c || isDigit09 c

/-- The regex `^[A-Z]{3}-?\d{4}$` (`OLD_PLATE_REGEX` in the source): three
uppercase letters, an optional hyphen, four digits. -/
def OLD_PLATE_REGEX : List Char → Bool
  | [a, b, c, d, e, f, g] =>
      isUpperAZ a && isUpperAZ b && isUpperAZ c &&
        isDigit09 d && isDigit09 e && isDigit09 f && isDigit09 g
  | [a, b, c, h, d, e, f, g] =>
      isUpperAZ a && isUpperAZ b && isUpperAZ c && (h == '-') &&
        isDigit09 d && isDigit09 e && isDigit09 f && isDigit09 g
  | _ => false

/-- The regex `^[A-Z]{3}\d[A-Z]\d{2}$` (`NEW_PLATE_REGEX` in the source). -/
def NEW_PLATE_REGEX : List Char → Bool
  | [a, b, c, d, e, f, g] =>
      isUpperAZ a && isUpperAZ b && isUpperAZ c &&
        isDigit09 d && isUpperAZ e && isDigit09 f && isDigit09 g
  | _ => false

/-- The regex `^[A-Z]{3}\d$` used at normalized length 4. -/
def REGEX_LLLD : List Char → Bool
  | [a, b, c, d] => isUpperAZ a && isUpperAZ b && isUpperAZ c && isDigit09 d
  | _ => false

/-- The regex `^[A-Z]{3}\d[A-Z]$` used at normalized length 5. -/
def REGEX_LLLDL : List Char → Bool
  | [a, b, c, d, e] =>
      isUpperAZ a && isUpperAZ b && isUpperAZ c && isDigit09 d && isUpperAZ e
  | _ => false

/-- The regex `^[A-Z]{3}\d{2}$` used at normalized length 5. -/
def REGEX_LLLDD : List Char → Bool
  | [a, b, c, d, e] =>
      isUpperAZ a && isUpperAZ b && isUpperAZ c && isDigit09 d && isDigit09 e
  | _ => false

/-- The regex `^[A-Z]{3}\d[A-Z]\d$` used at normalized length 6. -/
def REGEX_LLLDLD : List Char → Bool
  | [a, b, c, d, e, f] =>
      isUpperAZ a && isUpperAZ b && isUpperAZ c && isDigit09 d &&
        isUpperAZ e && isDigit09 f
  | _ => false

/-- The regex `^[A-Z]{3}\d{3}$` used at normalized length 6. -/
def REGEX_LLLDDD : List Char → Bool
  | [a, b, c, d, e, f] =>
      isUpperAZ a && isUpperAZ b && isUpperAZ c && isDigit09 d &&
        isDigit09 e && isDigit09 f
  | _ => false

/-- `BrazilianPlateValidator.detectFormat`. The cascade of early returns of
the source is rendered as an if-chain: each branch condition carries the
length guard under which the corresponding `return` statement executes. -/
def detectFormat (input : List Char) : Option PlateFormat :=
  let cleanInput := normalize input
  if cleanInput.length = 7 ∧
      OLD_PLATE_REGEX (cleanInput.take 3 ++ '-' :: cleanInput.drop 3) = true then
    some PlateFormat.OLD
  else if cleanInput.length = 7 ∧ NEW_PLATE_REGEX cleanInput = true then
    some PlateFormat.NEW
  else if cleanInput.length ≤ 3 then
    none
  else if cleanInput.length = 4 ∧ REGEX_LLLD cleanInput = true then
    none
  else if cleanInput.length = 5 ∧ REGEX_LLLDL cleanInput = true then
    some PlateFormat.NEW
  else if cleanInput.length = 5 ∧ REGEX_LLLDD cleanInput = true then
    some PlateFormat.OLD
  else if cleanInput.length = 6 ∧ REGEX_LLLDLD cleanInput = true then
    some PlateFormat.NEW
  else if cleanInput.length = 6 ∧ REGEX_LLLDDD cleanInput = true then
    some PlateFormat.OLD
  else
    none

/-- `BrazilianPlateValidator.applyMask`. The `format` parameter defaults to
`none` at call sites that omit it; `format || this.detectFormat(cleanInput)`
is rendered by the `match` on `format`. `slice(3, 7)` is `(drop 3).take 4`. -/
def applyMask (input : List Char) (format : Option PlateFormat) : List Char :=
  let cleanInput := normalize input
  if cleanInput.length = 0 then
    []
  else
    let detectedFormat :=
      match format with
      | some f => some f
      | none => detectFormat cleanInput
    match detectedFormat with
    | none => cleanInput
    | some PlateFormat.OLD =>
        if cleanInput.length ≤ 3 then
          cleanInput
        else
          cleanInput.take 3 ++ '-' :: (cleanInput.drop 3).take 4
    | some PlateFormat.NEW => cleanInput

/-- Result record of `validate` (`PlateValidationResult` in the source). A
missing `errorMessage` field of the source object is `none` here. -/
structure PlateValidationResult where
  isValid : Bool
  format : Option PlateFormat
  formatted : List Char
  errorMessage : Option (List Char)

deriving instance DecidableEq for PlateValidationResult

/-- Error message used when the input normalizes to the empty string. -/
def MSG_REQUIRED : List Char := "Placa é obrigatória".data

/-- Error message used when the normalized input is shorter than 7. -/
def MSG_INCOMPLETE : List Char := "Placa incompleta".data

/-- Error message used when the normalized input is longer than 7. -/
def MSG_TOO_LONG : List Char := "Placa muito longa".data

/-- Error message used when a 7-character normalized input matches neither
grammar. -/
def MSG_UNRECOGNIZED : List Char := "Formato de placa inválido".data

/-- Usage hint of the defensive re-validation branch for the OLD format. -/
def MSG_USE_OLD : List Char := "Formato inválido. Use: AAA-1234".data

/-- Usage hint of the defensive re-validation branch for the NEW format. -/
def MSG_USE_NEW : List Char := "Formato inválido. Use: BRA2E19".data

/-- `BrazilianPlateValidator.validate`. -/
def validate (input : List Char) : PlateValidationResult :=
  let cleanInput := normalize input
  if cleanInput.length = 0 then
    { isValid := false, format := none, formatted := [],
      errorMessage := some MSG_REQUIRED }
  else if cleanInput.length < 7 then
    { isValid := false, format := none, formatted := applyMask cleanInput none,
      errorMessage := some MSG_INCOMPLETE }
  else if cleanInput.length > 7 then
    { isValid := false, format := none, formatted := input,
      errorMessage := some MSG_TOO_LONG }
  else
    match detectFormat cleanInput with
    | none =>
        { isValid := false, format := none, formatted := input,
          errorMessage := some MSG_UNRECOGNIZED }
    | some format =>
        let formatted := applyMask cleanInput (some format)
        match format with
        | PlateFormat.OLD =>
            if OLD_PLATE_REGEX formatted = false then
              { isValid := false, format := some format, formatted := formatted,
                errorMessage := some MSG_USE_OLD }
            else
              { isValid := true, format := some format, formatted := formatted,
                errorMessage := none }
        | PlateFormat.NEW =>
            if NEW_PLATE_REGEX cleanInput = false then
              { isValid := false, format := some format, formatted := formatted,
                errorMessage := some MSG_USE_NEW }
            else
              { isValid := true, format := some format, formatted := formatted,
                errorMessage := none }

/-- `BrazilianPlateValidator.formatPlateInput`. -/
def formatPlateInput (currentValue newInput : List Char) : List Char :=
  let cleanInput := normalize newInput
  if cleanInput.length > 7 then
    currentValue
  else
    applyMask cleanInput none

theorem scenario_old_plate_valid : validate "abc1234".data =
    { isValid := true, format := some PlateFormat.OLD,
      formatted := "ABC-1234".data, errorMessage := none } := by decide

theorem scenario_new_plate_valid : validate "BRA2E19".data =
    { isValid := true, format := some PlateFormat.NEW,
      formatted := "BRA2E19".data, errorMessage := none } := by decide

theorem scenario_incomplete_plate : validate "ABC12".data =
    { isValid := false, format := none, formatted := "ABC-12".data,
      errorMessage := some MSG_INCOMPLETE } := by decide

theorem scenario_empty_plate : validate "".data =
    { isValid := false, format := none, formatted := [],
      errorMessage := some MSG_REQUIRED } := by decide

theorem scenario_too_long_plate : validate "ABC12345".data =
    { isValid := false, format := none, formatted := "ABC12345".data,
      errorMessage := some MSG_TOO_LONG } := by decide

theorem scenario_keystroke_rejected : formatPlateInput "ABC-123".data "ABC-1234X".data = "ABC-123".data := by
  decide

theorem scenario_detect_len5_new : detectFormat "ABC2E".data = some PlateFormat.NEW := by decide

theorem scenario_detect_len5_old : detectFormat "ABC23".data = some PlateFormat.OLD := by decide

/-! Character-level facts about `Char.toUpper` on the classes involved. -/

theorem toNat_ofNat_of_valid {n : Nat} (h : n.isValidChar) :
    (Char.ofNat n).toNat = n := by
  rw [Char.ofNat, dif_pos h]
  rfl

theorem toUpper_toNat_of_lower {c : Char} (h1 : 97 ≤ c.toNat)
    (h2 : c.toNat ≤ 122) : (Char.toUpper c).toNat = c.toNat - 32 := by
  simp only [Char.toUpper]
  rw [if_pos ⟨h1, h2⟩]
  exact toNat_ofNat_of_valid (Or.inl (by omega))

theorem toUpper_eq_self_of_not_lower {c : Char}
    (h : ¬(97 ≤ c.toNat ∧ c.toNat ≤ 122)) : Char.toUpper c = c := by
  simp only [Char.toUpper]
  rw [if_neg h]

theorem isUpperOrDigit_toUpper {c : Char} (h : isPlateChar c = true) :
    isUpperOrDigit (Char.toUpper c) = true := by
  simp only [isPlateChar, Bool.or_eq_true, Bool.and_eq_true,
    decide_eq_true_eq] at h
  simp only [isUpperOrDigit, isUpperAZ, isDigit09, Bool.or_eq_true,
    Bool.and_eq_true, decide_eq_true_eq]
  rcases h with (⟨h1, h2⟩ | ⟨h1, h2⟩) | ⟨h1, h2⟩
  · rw [toUpper_eq_self_of_not_lower (by omega)]
    omega
  · rw [toUpper_toNat_of_lower h1 h2]
    omega
  · rw [toUpper_eq_self_of_not_lower (by omega)]
    omega

theorem toUpper_eq_self_of_upperOrDigit {c : Char}
    (h : isUpperOrDigit c = true) : Char.toUpper c = c := by
  simp only [isUpperOrDigit, isUpperAZ, isDigit09, Bool.or_eq_true,
    Bool.and_eq_true, decide_eq_true_eq] at h
  exact toUpper_eq_self_of_not_lower (by omega)

theorem isPlateChar_of_upperOrDigit {c : Char}
    (h : isUpperOrDigit c = true) : isPlateChar c = true := by
  simp only [isUpperOrDigit, isUpperAZ, isDigit09, Bool.or_eq_true,
    Bool.and_eq_true, decide_eq_true_eq] at h
  simp only [isPlateChar, Bool.or_eq_true, Bool.and_eq_true,
    decide_eq_true_eq]
  omega

/-! Facts about `normalize`. -/

theorem normalize_all_upperOrDigit (s : List Char) :
    (normalize s).all isUpperOrDigit = true := by
  simp only [normalize, List.all_eq_true, List.mem_map, List.mem_filter]
  rintro x ⟨c, ⟨_, hpc⟩, rfl⟩
  exact isUpperOrDigit_toUpper hpc

theorem normalize_eq_self_of_all {l : List Char}
    (h : l.all isUpperOrDigit = true) : normalize l = l := by
  induction l with
  | nil => rfl
  | cons a t ih =>
    simp only [List.all_cons, Bool.and_eq_true] at h
    have ht : normalize t = t := ih h.2
    simp only [normalize, List.filter_cons, isPlateChar_of_upperOrDigit h.1,
      if_true, List.map_cons, toUpper_eq_self_of_upperOrDigit h.1]
    simp only [normalize] at ht
    rw [ht]

theorem normalize_idem (s : List Char) :
    normalize (normalize s) = normalize s :=
  normalize_eq_self_of_all (normalize_all_upperOrDigit s)

theorem detectFormat_normalize (s : List Char) :
    detectFormat (normalize s) = detectFormat s := by
  unfold detectFormat
  rw [normalize_idem]

theorem applyMask_normalize (s : List Char) (f : Option PlateFormat) :
    applyMask (normalize s) f = applyMask s f := by
  unfold applyMask
  rw [normalize_idem]

/-! Behaviour of the classifier and the mask at full (length-7) inputs. -/

theorem detectFormat_len7 (s : List Char) (h7 : (normalize s).length = 7) :
    detectFormat s =
      (if OLD_PLATE_REGEX
            ((normalize s).take 3 ++ '-' :: (normalize s).drop 3) = true then
        some PlateFormat.OLD
      else if NEW_PLATE_REGEX (normalize s) = true then
        some PlateFormat.NEW
      else
        none) := by
  simp only [detectFormat]
  split_ifs <;> first | rfl | omega | tauto

theorem applyMask_old_len7 (s : List Char) (h7 : (normalize s).length = 7) :
    applyMask s (some PlateFormat.OLD) =
      (normalize s).take 3 ++ '-' :: (normalize s).drop 3 := by
  unfold applyMask
  rw [if_neg (by omega)]
  simp only
  rw [if_neg (by omega)]
  rw [show ((normalize s).drop 3).take 4 = (normalize s).drop 3 from
    List.take_of_length_le (by rw [List.length_drop]; omega)]

theorem applyMask_new_of_ne_nil (s : List Char)
    (h0 : (normalize s).length ≠ 0) :
    applyMask s (some PlateFormat.NEW) = normalize s := by
  unfold applyMask
  rw [if_neg h0]

theorem detect7_old_test (s : List Char) (h7 : (normalize s).length = 7)
    (hd : detectFormat s = some PlateFormat.OLD) :
    OLD_PLATE_REGEX ((normalize s).take 3 ++ '-' :: (normalize s).drop 3) =
      true := by
  have hchar := detectFormat_len7 s h7
  rw [hd] at hchar
  by_contra hno
  rw [if_neg hno] at hchar
  split_ifs at hchar
  simp_all

theorem detect7_new_test (s : List Char) (h7 : (normalize s).length = 7)
    (hd : detectFormat s = some PlateFormat.NEW) :
    NEW_PLATE_REGEX (normalize s) = true := by
  have hchar := detectFormat_len7 s h7
  rw [hd] at hchar
  split_ifs at hchar with h1 h2
  · exact absurd hchar (by simp)
  · exact h2

/-- Core success lemma: a length-7 normalized input that `detectFormat`
classifies validates successfully with the detected format, the masked
string and no error message. -/
theorem validate_eq_of_detect (s : List Char) (f : PlateFormat)
    (h7 : (normalize s).length = 7) (hd : detectFormat s = some f) :
    validate s =
      { isValid := true, format := some f,
        formatted := applyMask s (some f), errorMessage := none } := by
  simp only [validate]
  rw [if_neg (by omega), if_neg (by omega), if_neg (by omega)]
  rw [detectFormat_normalize, hd]
  cases f with
  | OLD =>
    have hold := detect7_old_test s h7 hd
    simp only
    rw [applyMask_normalize, applyMask_old_len7 s h7, hold]
    simp
  | NEW =>
    have hnew := detect7_new_test s h7 hd
    simp only
    rw [applyMask_normalize, hnew]
    simp


theorem length_seven_shape {l : List Char} (h : l.length = 7) :
    ∃ a b c d e f g, l = [a, b, c, d, e, f, g] := by
  rcases l with _ | ⟨a, _ | ⟨b, _ | ⟨c, _ | ⟨d, _ | ⟨e, _ | ⟨f, _ |
    ⟨g, _ | ⟨x, t⟩⟩⟩⟩⟩⟩⟩⟩ <;>
      simp only [List.length_cons, List.length_nil] at h <;> try omega
  exact ⟨a, b, c, d, e, f, g, rfl⟩

theorem old_hyphen_test_eq (n : List Char) (h7 : n.length = 7) :
    OLD_PLATE_REGEX (n.take 3 ++ '-' :: n.drop 3) = OLD_PLATE_REGEX n := by
  obtain ⟨a, b, c, d, e, f, g, rfl⟩ := length_seven_shape h7
  simp [OLD_PLATE_REGEX]

/-- Each `errorMessage` produced by `validate` is one of the five messages
attached to the non-defensive branches. -/
theorem validate_errorMessage_cases (s : List Char) :
    (validate s).errorMessage = none ∨
    (validate s).errorMessage = some MSG_REQUIRED ∨
    (validate s).errorMessage = some MSG_INCOMPLETE ∨
    (validate s).errorMessage = some MSG_TOO_LONG ∨
    (validate s).errorMessage = some MSG_UNRECOGNIZED := by
  rcases Nat.lt_trichotomy (normalize s).length 7 with hlt | heq | hgt
  · by_cases h0 : (normalize s).length = 0
    · have hv : validate s =
          { isValid := false, format := none, formatted := [],
            errorMessage := some MSG_REQUIRED } := by
        simp only [validate]
        rw [if_pos h0]
      rw [hv]
      tauto
    · have hv : validate s =
          { isValid := false, format := none,
            formatted := applyMask (normalize s) none,
            errorMessage := some MSG_INCOMPLETE } := by
        simp only [validate]
        rw [if_neg h0, if_pos hlt]
      rw [hv]
      tauto
  · cases hdf : detectFormat s with
    | none =>
      have hv : validate s =
          { isValid := false, format := none, formatted := s,
            errorMessage := some MSG_UNRECOGNIZED } := by
        simp only [validate]
        rw [if_neg (by omega), if_neg (by omega), if_neg (by omega),
          detectFormat_normalize, hdf]
      rw [hv]
      tauto
    | some f =>
      have hv := validate_eq_of_detect s f heq hdf
      rw [hv]
      tauto
  · have hv : validate s =
        { isValid := false, format := none, formatted := s,
          errorMessage := some MSG_TOO_LONG } := by
      simp only [validate]
      rw [if_neg (by omega), if_neg (by omega), if_pos hgt]
    rw [hv]
    tauto

theorem mem_upperOrDigit_of_mem_normalize {s : List Char} {x : Char}
    (hx : x ∈ normalize s) : isUpperOrDigit x = true := by
  have hall := normalize_all_upperOrDigit s
  rw [List.all_eq_true] at hall
  exact hall x hx

theorem normalize_of_subset_normalize {s m : List Char}
    (hsub : ∀ x ∈ m, x ∈ normalize s) : normalize m = m :=
  normalize_eq_self_of_all (by
    rw [List.all_eq_true]
    exact fun x hx => mem_upperOrDigit_of_mem_normalize (hsub x hx))

theorem normalize_append (l1 l2 : List Char) :
    normalize (l1 ++ l2) = normalize l1 ++ normalize l2 := by
  simp [normalize]

theorem normalize_cons_hyphen (l : List Char) :
    normalize ('-' :: l) = normalize l := by
  have hh : isPlateChar '-' = false := by decide
  simp [normalize, List.filter_cons, hh]

/-- Whatever format argument it is given, `applyMask` never produces a
string whose normalized form is longer than the normalized input (which is
at most 7 here). -/
theorem normalize_applyMask_length_le (s : List Char) (f : Option PlateFormat)
    (hs : (normalize s).length ≤ 7) :
    (normalize (applyMask s f)).length ≤ 7 := by
  simp only [applyMask]
  split_ifs with h0 h3
  · simp [normalize]
  · cases hdf : (match f with
        | some g => some g
        | none => detectFormat (normalize s)) with
    | none =>
      rw [normalize_idem]
      exact hs
    | some g =>
      cases g <;> rw [normalize_idem] <;> exact hs
  · cases hdf : (match f with
        | some g => some g
        | none => detectFormat (normalize s)) with
    | none =>
      rw [normalize_idem]
      exact hs
    | some g =>
      cases g with
      | OLD =>
        rw [normalize_append,
          normalize_of_subset_normalize
            (fun x hx => List.mem_of_mem_take hx),
          normalize_cons_hyphen,
          normalize_of_subset_normalize
            (fun x hx => List.mem_of_mem_drop (List.mem_of_mem_take hx))]
        rw [List.length_append, List.length_take, List.length_take,
          List.length_drop]
        omega
      | NEW =>
        rw [normalize_idem]
        exact hs

theorem new_regex_shape {n : List Char} (h : NEW_PLATE_REGEX n = true) :
    ∃ a b c d e f g, n = [a, b, c, d, e, f, g] ∧
      isUpperAZ a = true ∧ isUpperAZ b = true ∧ isUpperAZ c = true ∧
      isDigit09 d = true ∧ isUpperAZ e = true ∧ isDigit09 f = true ∧
      isDigit09 g = true := by
  rcases n with _ | ⟨a, _ | ⟨b, _ | ⟨c, _ | ⟨d, _ | ⟨e, _ | ⟨f, _ |
    ⟨g, _ | ⟨x, t⟩⟩⟩⟩⟩⟩⟩⟩
  all_goals simp only [NEW_PLATE_REGEX, Bool.and_eq_true,
    Bool.false_eq_true] at h
  refine ⟨a, b, c, d, e, f, g, rfl, ?_, ?_, ?_, ?_, ?_, ?_, ?_⟩ <;> tauto

theorem old_regex_shape {n : List Char} (hall : n.all isUpperOrDigit = true)
    (h : OLD_PLATE_REGEX n = true) :
    ∃ a b c d e f g, n = [a, b, c, d, e, f, g] ∧
      isUpperAZ a = true ∧ isUpperAZ b = true ∧ isUpperAZ c = true ∧
      isDigit09 d = true ∧ isDigit09 e = true ∧ isDigit09 f = true ∧
      isDigit09 g = true := by
  rcases n with _ | ⟨a, _ | ⟨b, _ | ⟨c, _ | ⟨d, _ | ⟨e, _ | ⟨f, _ |
    ⟨g, _ | ⟨x, _ | ⟨y, t⟩⟩⟩⟩⟩⟩⟩⟩⟩
  all_goals simp only [OLD_PLATE_REGEX, Bool.and_eq_true, beq_iff_eq,
    Bool.false_eq_true] at h
  · refine ⟨a, b, c, d, e, f, g, rfl, ?_, ?_, ?_, ?_, ?_, ?_, ?_⟩ <;> tauto
  · have hd : d = '-' := by tauto
    subst hd
    have h4 : isUpperOrDigit '-' = true := by
      simp only [List.all_cons, Bool.and_eq_true] at hall
      tauto
    exact absurd h4 (by decide)

theorem old_regex_false_of_new {n : List Char}
    (h : NEW_PLATE_REGEX n = true) : OLD_PLATE_REGEX n = false := by
  obtain ⟨a, b, c, d, e, f, g, rfl, h1, h2, h3, h4, h5, h6, h7⟩ :=
    new_regex_shape h
  have he : isDigit09 e = false := by
    cases hie : isDigit09 e
    · rfl
    · exfalso
      simp only [isUpperAZ, Bool.and_eq_true, decide_eq_true_eq] at h5
      simp only [isDigit09, Bool.and_eq_true, decide_eq_true_eq] at hie
      omega
  simp [OLD_PLATE_REGEX, he]

theorem applyMask_none_eq (s : List Char) :
    applyMask s none = applyMask s (detectFormat s) := by
  simp only [applyMask]
  rw [detectFormat_normalize]
  cases detectFormat s with
  | none => rfl
  | some f => rfl

theorem detectFormat_eq_old (s : List Char) (h7 : (normalize s).length = 7)
    (h : OLD_PLATE_REGEX (normalize s) = true) :
    detectFormat s = some PlateFormat.OLD := by
  rw [detectFormat_len7 s h7, old_hyphen_test_eq (normalize s) h7, h]
  simp

theorem detectFormat_eq_new (s : List Char) (h7 : (normalize s).length = 7)
    (hnew : NEW_PLATE_REGEX (normalize s) = true)
    (hold : OLD_PLATE_REGEX (normalize s) = false) :
    detectFormat s = some PlateFormat.NEW := by
  rw [detectFormat_len7 s h7, old_hyphen_test_eq (normalize s) h7, hold, hnew]
  simp

/-! Definitions written from the specification, for comparison with the
code. -/

/-- Case analysis of the classifier at partial (non-7) normalized lengths,
as the specification words it: length at most 3 gives null; length 4 gives
null; length 5 gives NEW on `LLLDL`, else OLD on `LLLDD`, else null;
length 6 gives NEW on `LLLDLD`, else OLD on `LLLDDD`, else null; any
greater length gives null. Spec-side definition used by C4. -/
def detectFormatOtherLengthsSpec (n : List Char) : Option PlateFormat :=
  if n.length ≤ 3 then none
  else if n.length = 4 then none
  else if n.length = 5 then
    if REGEX_LLLDL n = true then some PlateFormat.NEW
    else if REGEX_LLLDD n = true then some PlateFormat.OLD
    else none
  else if n.length = 6 then
    if REGEX_LLLDLD n = true then some PlateFormat.NEW
    else if REGEX_LLLDDD n = true then some PlateFormat.OLD
    else none
  else none

/-- The specification's regex `^[A-Z]{3}-\d{4}$` (hyphen mandatory): the
fully masked OLD display form. Spec-side definition used by C8. -/
def MASKED_OLD_REGEX : List Char → Bool
  | [a, b, c, h, d, e, f, g] =>
      isUpperAZ a && isUpperAZ b && isUpperAZ c && (h == '-') &&
        isDigit09 d && isDigit09 e && isDigit09 f && isDigit09 g
  | _ => false

/-- The `format` field of a validation result is the classifier's verdict
at normalized length 7 and `none` at every other length. -/
theorem validate_format_eq (s : List Char) :
    (validate s).format =
      (if (normalize s).length = 7 then detectFormat s else none) := by
  rcases Nat.lt_trichotomy (normalize s).length 7 with hlt | heq | hgt
  · rw [if_neg (by omega)]
    by_cases h0 : (normalize s).length = 0
    · have hv : validate s =
          { isValid := false, format := none, formatted := [],
            errorMessage := some MSG_REQUIRED } := by
        simp only [validate]
        rw [if_pos h0]
      rw [hv]
    · have hv : validate s =
          { isValid := false, format := none,
            formatted := applyMask (normalize s) none,
            errorMessage := some MSG_INCOMPLETE } := by
        simp only [validate]
        rw [if_neg h0, if_pos hlt]
      rw [hv]
  · rw [if_pos heq]
    cases hdf : detectFormat s with
    | none =>
      have hv : validate s =
          { isValid := false, format := none, formatted := s,
            errorMessage := some MSG_UNRECOGNIZED } := by
        simp only [validate]
        rw [if_neg (by omega), if_neg (by omega), if_neg (by omega),
          detectFormat_normalize, hdf]
      rw [hv]
    | some f =>
      rw [validate_eq_of_detect s f heq hdf]
  · rw [if_neg (by omega)]
    have hv : validate s =
        { isValid := false, format := none, formatted := s,
          errorMessage := some MSG_TOO_LONG } := by
      simp only [validate]
      rw [if_neg (by omega), if_neg (by omega), if_pos hgt]
    rw [hv]

/-! Claims. -/

/-- C1: for every input string whose normalized form has length exactly 7,
if `detectFormat` returns a non-null format `f`, then `validate` returns
`isValid = true`, that format, the masked string `applyMask s f`, and no
error message. -/
theorem c1_validate_succeeds_on_detected (s : List Char) (f : PlateFormat)
    (h7 : (normalize s).length = 7) (hd : detectFormat s = some f) :
    validate s =
      { isValid := true, format := some f,
        formatted := applyMask s (some f), errorMessage := none } :=
  validate_eq_of_detect s f h7 hd

/-- C1 witness: the concrete complete OLD-format input `ABC1234`. -/
theorem c1_witness :
    validate "ABC1234".data =
      { isValid := true, format := some PlateFormat.OLD,
        formatted := applyMask "ABC1234".data (some PlateFormat.OLD),
        errorMessage := none } :=
  c1_validate_succeeds_on_detected "ABC1234".data PlateFormat.OLD (by decide)
    (by decide)

/-- C2: `validate` never returns a result whose error message is one of the
format-specific usage hints of the defensive re-validation branch
(`Formato inválido. Use: AAA-1234` / `Formato inválido. Use: BRA2E19`):
that branch is unreachable. -/
theorem c2_no_grammar_mismatch_hint (s : List Char) :
    ((validate s).errorMessage == some MSG_USE_OLD) = false ∧
    ((validate s).errorMessage == some MSG_USE_NEW) = false := by
  rcases validate_errorMessage_cases s with h | h | h | h | h <;> rw [h] <;>
    exact ⟨by decide, by decide⟩

/-- C3: a string of length exactly 7 never satisfies both the OLD pattern
(3 letters then 4 digits) and the NEW pattern (3 letters, digit, letter,
2 digits) — position 5 would have to be both a digit and a letter — and the
classifier yields exactly one of OLD, NEW or null on it. -/
theorem c3_grammars_mutually_exclusive (n : List Char) (h7 : n.length = 7) :
    ¬(OLD_PLATE_REGEX n = true ∧ NEW_PLATE_REGEX n = true) ∧
      (detectFormat n = some PlateFormat.OLD ∨
        detectFormat n = some PlateFormat.NEW ∨ detectFormat n = none) := by
  constructor
  · rintro ⟨hold, hnew⟩
    obtain ⟨a, b, c, d, e, f, g, rfl⟩ := length_seven_shape h7
    simp only [OLD_PLATE_REGEX, NEW_PLATE_REGEX, Bool.and_eq_true,
      isUpperAZ, isDigit09, decide_eq_true_eq] at hold hnew
    omega
  · cases hdf : detectFormat n with
    | none => exact Or.inr (Or.inr rfl)
    | some f =>
      cases f with
      | OLD => exact Or.inl rfl
      | NEW => exact Or.inr (Or.inl rfl)

/-- C3 witness: the concrete length-7 string `ABC1234`. -/
theorem c3_witness :
    ¬(OLD_PLATE_REGEX "ABC1234".data = true ∧
        NEW_PLATE_REGEX "ABC1234".data = true) ∧
      (detectFormat "ABC1234".data = some PlateFormat.OLD ∨
        detectFormat "ABC1234".data = some PlateFormat.NEW ∨
        detectFormat "ABC1234".data = none) :=
  c3_grammars_mutually_exclusive "ABC1234".data (by decide)

set_option maxHeartbeats 1000000 in
/-- C4: at every normalized length other than 7, `detectFormat` follows the
partial-length case analysis `detectFormatOtherLengthsSpec`: at most 3 gives
null, 4 gives null, 5 gives NEW on `LLLDL` else OLD on `LLLDD` else null,
6 gives NEW on `LLLDLD` else OLD on `LLLDDD` else null, above 7 gives
null. -/
theorem c4_detectFormat_other_lengths (s : List Char)
    (h : (normalize s).length ≠ 7) :
    detectFormat s = detectFormatOtherLengthsSpec (normalize s) := by
  simp only [detectFormat, detectFormatOtherLengthsSpec]
  split_ifs <;> first | rfl | omega | tauto

/-- C4 witness: `ab-c12` normalizes to the length-5 string `ABC12`, which
the partial case analysis classifies as OLD. -/
theorem c4_witness :
    detectFormat "ab-c12".data =
        detectFormatOtherLengthsSpec (normalize "ab-c12".data) ∧
      detectFormatOtherLengthsSpec (normalize "ab-c12".data) =
        some PlateFormat.OLD :=
  ⟨c4_detectFormat_other_lengths "ab-c12".data (by decide), by decide⟩

/-- C5: every invalid result is shaped by the normalized length: length 0
gives the empty formatted string and the required-message; length 1 to 6
gives the masked partial string and the incomplete-message; length above 7
gives the raw input and the too-long-message; length exactly 7 with null
classification gives the raw input and the unrecognized-format message. -/
theorem c5_validate_invalid_shapes (s : List Char)
    (h : (normalize s).length ≠ 7 ∨ detectFormat s = none) :
    validate s =
      (if (normalize s).length = 0 then
        { isValid := false, format := none, formatted := [],
          errorMessage := some MSG_REQUIRED }
      else if (normalize s).length < 7 then
        { isValid := false, format := none,
          formatted := applyMask (normalize s) none,
          errorMessage := some MSG_INCOMPLETE }
      else if (normalize s).length > 7 then
        { isValid := false, format := none, formatted := s,
          errorMessage := some MSG_TOO_LONG }
      else
        { isValid := false, format := none, formatted := s,
          errorMessage := some MSG_UNRECOGNIZED }) := by
  simp only [validate]
  by_cases h0 : (normalize s).length = 0
  · rw [if_pos h0, if_pos h0]
  · rw [if_neg h0, if_neg h0]
    by_cases h1 : (normalize s).length < 7
    · rw [if_pos h1, if_pos h1]
    · rw [if_neg h1, if_neg h1]
      by_cases h2 : (normalize s).length > 7
      · rw [if_pos h2, if_pos h2]
      · rw [if_neg h2, if_neg h2]
        have hdf : detectFormat s = none := by
          rcases h with h | h
          · omega
          · exact h
        rw [detectFormat_normalize, hdf]

/-- C5 witness: the empty input. -/
theorem c5_witness :
    validate "".data =
      { isValid := false, format := none, formatted := [],
        errorMessage := some MSG_REQUIRED } :=
  (c5_validate_invalid_shapes "".data (Or.inl (by decide))).trans (by decide)

/-- C6 counterexample: the claim fails as stated, because when the new
input normalizes to more than 7 characters the previous value is returned
unchanged, and nothing constrains that previous value: here it normalizes
to 8 characters. -/
theorem c6_counterexample :
    7 < (normalize (formatPlateInput "AAAAAAAA".data "AAAAAAAAA".data)).length
    := by decide

/-- C6 (amended): whenever the previous display value normalizes to at
most 7 characters — as every string produced by the formatter itself
does — `formatPlateInput` never returns a string whose normalized form
exceeds 7 characters. -/
theorem c6_formatPlateInput_bounded (prev next : List Char)
    (hprev : (normalize prev).length ≤ 7) :
    (normalize (formatPlateInput prev next)).length ≤ 7 := by
  simp only [formatPlateInput]
  split_ifs with h
  · exact hprev
  · rw [applyMask_normalize]
    exact normalize_applyMask_length_le next none (by omega)

/-- C6 witness. -/
theorem c6_witness :
    (normalize (formatPlateInput "ABC-123".data "ABC-1234".data)).length ≤ 7 :=
  c6_formatPlateInput_bounded "ABC-123".data "ABC-1234".data (by decide)

/-- C7: `formatPlateInput` returns the previous display value unchanged
when the new input normalizes to more than 7 characters, and otherwise
returns the mask applied to the normalized new input with the format
auto-detected. -/
theorem c7_formatPlateInput_cases (prev next : List Char) :
    formatPlateInput prev next =
      (if (normalize next).length > 7 then prev
      else applyMask (normalize next) none) := rfl

/-- C8: when the normalized input is a complete OLD plate (3 letters then
4 digits), `applyMask` yields a string matching `^[A-Z]{3}-\d{4}$`; when it
is a complete NEW plate, `applyMask` returns the normalized input
unchanged. -/
theorem c8_applyMask_full_plates (s : List Char) :
    (OLD_PLATE_REGEX (normalize s) = true →
      MASKED_OLD_REGEX (applyMask s none) = true) ∧
    (NEW_PLATE_REGEX (normalize s) = true →
      applyMask s none = normalize s) := by
  constructor
  · intro hold
    obtain ⟨a, b, c, d, e, f, g, hn, h1, h2, h3, h4, h5, h6, h7⟩ :=
      old_regex_shape (normalize_all_upperOrDigit s) hold
    have hlen : (normalize s).length = 7 := by rw [hn]; rfl
    rw [applyMask_none_eq, detectFormat_eq_old s hlen hold,
      applyMask_old_len7 s hlen, hn]
    simp [MASKED_OLD_REGEX, h1, h2, h3, h4, h5, h6, h7]
  · intro hnew
    have hofalse := old_regex_false_of_new hnew
    obtain ⟨a, b, c, d, e, f, g, hn, _⟩ := new_regex_shape hnew
    have hlen : (normalize s).length = 7 := by rw [hn]; rfl
    rw [applyMask_none_eq, detectFormat_eq_new s hlen hnew hofalse]
    exact applyMask_new_of_ne_nil s (by omega)

/-- C8 witness: a complete OLD plate and a complete NEW plate. -/
theorem c8_witness :
    MASKED_OLD_REGEX (applyMask "ABC1234".data none) = true ∧
    applyMask "BRA2E19".data none = normalize "BRA2E19".data :=
  ⟨(c8_applyMask_full_plates "ABC1234".data).1 (by decide),
    (c8_applyMask_full_plates "BRA2E19".data).2 (by decide)⟩

/-- C9: normalization produces only characters in `[A-Z0-9]`, is
idempotent, and maps the empty input to the empty output. -/
theorem c9_normalize_wellformed (s : List Char) :
    (normalize s).all isUpperOrDigit = true ∧
    normalize (normalize s) = normalize s ∧
    normalize ([] : List Char) = [] :=
  ⟨normalize_all_upperOrDigit s, normalize_idem s, rfl⟩

/-- C10: the `format` field of a validation result is null at every
normalized length other than 7 — even when the partial prefix already
classifies, as for `ABC12`, which `detectFormat` calls OLD and which is
masked to `ABC-12` in the formatted field — and at length 7 it equals the
classifier's verdict, hence is non-null only when classification
succeeds. -/
theorem c10_format_null_unless_complete (s : List Char) :
    ((validate s).format =
        (if (normalize s).length = 7 then detectFormat s else none)) ∧
      detectFormat "ABC12".data = some PlateFormat.OLD ∧
      (validate "ABC12".data).format = none ∧
      (validate "ABC12".data).formatted = "ABC-12".data :=
  ⟨validate_format_eq s, by decide, by decide, by decide⟩

end BrazilianPlateValidator
